import Mathlib

/-!
Verification development for the GenieTalk agent script (`agent.py`).

The script is shallowly embedded: Python strings become `String`, Python
lists become `List`, the fallible outbound model call becomes a function
`GenPayload → Option String` (`none` models a raised exception), and the
Streamlit session state becomes an explicit `SessionState` record threaded
through the turn handler.  Python slicing `s[:n]` is modelled by `pySlice`
(by code point, as in Python), `l[-n:]` by `pyTail`, and the blank test
`not s.strip()` by `pyIsBlank`.
-/

namespace GenieTalk

/-- Models Python string slicing `s[:n]` (first `n` code points). -/
def pySlice (s : String) (n : Nat) : String := String.mk (s.data.take n)

/-- Models Python `s.lower()` (per code point). -/
def pyLower (s : String) : String := String.mk (s.data.map Char.toLower)

/-- Models Python `s.endswith(suffix)`. -/
def pyEndsWith (s suffix : String) : Bool := List.isSuffixOf suffix.data s.data

/-- Models Python list slicing `l[-n:]` (last `min n (length l)` elements). -/
def pyTail (l : List α) (n : Nat) : List α := l.drop (l.length - n)

/-- Models Python truthiness of `s.strip()` being empty: every character of
`s` is whitespace (in particular, `s` may be empty). -/
def pyIsBlank (s : String) : Bool := s.data.all Char.isWhitespace

/-- One chat turn as stored in `st.session_state.messages`:
a dict `{"user": ..., "assistant": ...}`. -/
structure Turn where
  user : String
  assistant : String
deriving DecidableEq, Repr

/-- One agentic-mode run record as stored in `st.session_state.agent_runs`:
the dict `{"agentic_explanation": ...}` returned by `agentic_plan_and_execute`. -/
structure AgentRun where
  agentic_explanation : String
deriving DecidableEq, Repr

/-- The Streamlit session state touched by the turn handler:
`st.session_state.messages` and `st.session_state.agent_runs`. -/
structure SessionState where
  messages : List Turn
  agent_runs : List AgentRun
deriving DecidableEq, Repr

/-- One entry of the structured `contents` list sent by `tool_general_chat`:
a dict `{"role": ..., "parts": [...]}`. -/
structure Content where
  role : String
  parts : List String
deriving DecidableEq, Repr

/-- The payload handed to `model.generate_content`: either a flat prompt
string or the structured list of role-tagged entries. -/
inductive GenPayload
  | flat (prompt : String)
  | structured (contents : List Content)
deriving DecidableEq

/-- The model gateway: `model.generate_content` followed by `.text`.
`none` models the call raising an exception. -/
def Gen : Type := GenPayload → Option String

/-- The always-failing gateway, used to witness that a code path performs
no gateway call (its result is available even though every call fails). -/
def genNone : Gen := fun _ => none

/- ===== FILE / DOC HANDLING ===== -/

/-- A byte `b` is a UTF-8 continuation byte (`10xxxxxx`). -/
def isContByte (b : Nat) : Bool := decide (128 ≤ b ∧ b ≤ 191)

/-- Validity of the second byte `b1` of a multi-byte sequence with lead
byte `b`, including the tightened ranges that exclude overlong forms,
surrogates and scalar values above U+10FFFF. -/
def utf8Valid2 (b b1 : Nat) : Bool :=
  if b = 224 then decide (160 ≤ b1 ∧ b1 ≤ 191)
  else if b = 237 then decide (128 ≤ b1 ∧ b1 ≤ 159)
  else if b = 240 then decide (144 ≤ b1 ∧ b1 ≤ 191)
  else if b = 244 then decide (128 ≤ b1 ∧ b1 ≤ 143)
  else isContByte b1

/-- Decode one UTF-8 scalar whose lead byte is `b` and whose following
bytes start `rest`; returns the decoded character together with the number
of continuation bytes consumed, or `none` when no well-formed sequence
starts here. -/
def utf8Dec1 (b : Nat) (rest : List Nat) : Option (Char × Nat) :=
  if b < 128 then some (Char.ofNat b, 0)
  else if 194 ≤ b ∧ b ≤ 223 then
    match rest with
    | b1 :: _ =>
      if isContByte b1 then some (Char.ofNat ((b - 192) * 64 + (b1 - 128)), 1) else none
    | [] => none
  else if 224 ≤ b ∧ b ≤ 239 then
    match rest with
    | b1 :: b2 :: _ =>
      if utf8Valid2 b b1 && isContByte b2 then
        some (Char.ofNat ((b - 224) * 4096 + (b1 - 128) * 64 + (b2 - 128)), 2)
      else none
    | _ => none
  else if 240 ≤ b ∧ b ≤ 244 then
    match rest with
    | b1 :: b2 :: b3 :: _ =>
      if utf8Valid2 b b1 && isContByte b2 && isContByte b3 then
        some (Char.ofNat ((b - 240) * 262144 + (b1 - 128) * 4096 + (b2 - 128) * 64 + (b3 - 128)), 3)
      else none
    | _ => none
  else none

/-- When no well-formed sequence starts at lead byte `b`, the number of
additional bytes (beyond `b`) belonging to the maximal valid subpart of the
ill-formed sequence, which the `ignore` and `replace` error handlers skip
(CPython follows the Unicode "maximal subpart" recommendation). -/
def utf8SkipLen (b : Nat) (rest : List Nat) : Nat :=
  if 224 ≤ b ∧ b ≤ 239 then
    match rest with
    | b1 :: _ => if utf8Valid2 b b1 then 1 else 0
    | [] => 0
  else if 240 ≤ b ∧ b ≤ 244 then
    match rest with
    | b1 :: b2 :: _ =>
      if utf8Valid2 b b1 then (if isContByte b2 then 2 else 1) else 0
    | [b1] => if utf8Valid2 b b1 then 1 else 0
    | [] => 0
  else 0

/-- Fueled worker for `bytes.decode("utf-8", errors="ignore")`: decodes
well-formed sequences and silently drops ill-formed byte runs.  The fuel
only serves structural termination; `utf8DecodeIgnore` supplies enough. -/
def utf8DecodeIgnoreAux : Nat → List Nat → List Char
  | _, [] => []
  | 0, _ :: _ => []
  | fuel + 1, b :: rest =>
    match utf8Dec1 b rest with
    | some (c, k) => c :: utf8DecodeIgnoreAux fuel (rest.drop k)
    | none => utf8DecodeIgnoreAux fuel (rest.drop (utf8SkipLen b rest))

/-- `bytes.decode("utf-8", errors="ignore")`. -/
def utf8DecodeIgnore (bytes : List Nat) : List Char :=
  utf8DecodeIgnoreAux bytes.length bytes

/-- Fueled worker for strict UTF-8 decoding (`errors="strict"`), which
fails on the first ill-formed sequence. -/
def utf8DecodeStrictAux : Nat → List Nat → Option (List Char)
  | _, [] => some []
  | 0, _ :: _ => none
  | fuel + 1, b :: rest =>
    match utf8Dec1 b rest with
    | some (c, k) => (utf8DecodeStrictAux fuel (rest.drop k)).map (fun cs => c :: cs)
    | none => none

/-- Strict UTF-8 decoding: `some` exactly on well-formed input. -/
def utf8DecodeStrict (bytes : List Nat) : Option (List Char) :=
  utf8DecodeStrictAux bytes.length bytes

/-- Fueled worker for the claimed `errors="replace"` semantics: each
ill-formed byte run contributes one U+FFFD replacement character. -/
def utf8DecodeReplaceAux : Nat → List Nat → List Char
  | _, [] => []
  | 0, _ :: _ => []
  | fuel + 1, b :: rest =>
    match utf8Dec1 b rest with
    | some (c, k) => c :: utf8DecodeReplaceAux fuel (rest.drop k)
    | none => Char.ofNat 65533 :: utf8DecodeReplaceAux fuel (rest.drop (utf8SkipLen b rest))

/-- `read_txt_file`: `file.read().decode("utf-8", errors="ignore")`. -/
def read_txt_file (bytes : List Nat) : String :=
  String.mk (utf8DecodeIgnore bytes)

/-- Modelled from the spec: the claimed variant of `.txt` decoding that
replaces undecodable bytes (`errors="replace"`), stated only to be compared
against the source's `read_txt_file`. -/
def read_txt_file_replace_spec (bytes : List Nat) : String :=
  String.mk (utf8DecodeReplaceAux bytes.length bytes)

/-- An uploaded file as the script sees it: its name, its raw bytes (read
by `read_txt_file`), and, when treated as a PDF, the per-page
`extract_text()` results delivered by the external PDF library (`none`
models a page yielding no text). -/
structure UFile where
  name : String
  bytes : List Nat
  pdfPages : List (Option String)

/-- `read_pdf_file` (with the PDF library importable): per-page extracted
text, a page yielding no text contributing `""`, pages joined by newline. -/
def read_pdf_file (pages : List (Option String)) : String :=
  String.intercalate "\n" (pages.map (fun p => p.getD ""))

/-- The per-file dispatch of `get_uploaded_text`: case-insensitive suffix
match on `.txt` then `.pdf`, any other name yielding the inline
`Unsupported file type` placeholder. -/
def fileText (f : UFile) : String :=
  if pyEndsWith (pyLower f.name) ".txt" then read_txt_file f.bytes
  else if pyEndsWith (pyLower f.name) ".pdf" then read_pdf_file f.pdfPages
  else "Unsupported file type: " ++ f.name

/-- `get_uploaded_text`: empty upload list yields `""`; otherwise the
per-file results joined with a blank line (`"\n\n".join`), in upload order. -/
def get_uploaded_text (files : List UFile) : String :=
  if files.isEmpty then ""
  else String.intercalate "\n\n" (files.map fileText)

/- ===== AGENT "TOOLS" (SKILLS) ===== -/

/-- The system prompt that `tool_general_chat` injects as a leading user
entry (the f-string `system_prompt`). -/
def generalSystemPrompt (role language : String) : String :=
  "\nYou are GenieTalk, an AI agentic assistant.\n\nRole: " ++ role ++
  "\n\nYou must:\n- Be helpful and concise.\n- Adapt your tone to the role (e.g., more emotional for Emotional Support, technical for Coding Help).\n- Always respond in this language: " ++
  language ++ ".\n"

/-- The `contents` list built by `tool_general_chat`: the leading synthetic
user entry, then the history loop appending a user and a model entry per
prior turn, then the current input as a final user entry. -/
def generalChatContents (user_input language role : String) (history : List Turn) : List Content :=
  (history.foldl
    (fun acc m => acc ++ [⟨"user", [m.user]⟩, ⟨"model", [m.assistant]⟩])
    [⟨"user", [generalSystemPrompt role language]⟩])
  ++ [⟨"user", [user_input]⟩]

/-- `tool_general_chat`: sends the structured contents list, trims the reply. -/
def tool_general_chat (gen : Gen) (user_input language role : String) (history : List Turn) : Option String :=
  (gen (GenPayload.structured (generalChatContents user_input language role history))).map String.trim

/-- The fixed message `tool_document_qa` returns when the document context
is blank. -/
def noDocMsg : String :=
  "(I could not find any document text. Please upload a PDF or TXT first.)"

/-- The flat prompt built by `tool_document_qa` (its f-string); the caller
splices in the already-truncated document text `doc_text[:25000]`. -/
def docQAPrompt (question docText language : String) : String :=
  "\nYou are a document QA assistant.\n\nYou receive:\n- A question from the user\n- Full extracted text from one or more documents\n\n1. First, briefly state what you understood about the question.\n2. Then answer using ONLY the document text when possible.\n3. If something is not in the document, clearly say it.\n\nAnswer in this language: " ++
  language ++ ".\n\nUser question:\n" ++ question ++ "\n\nDocument text:\n\"\"\"" ++
  docText ++ "\"\"\"  # (truncated if very long)\n"

/-- `tool_document_qa`: blank document context short-circuits with the fixed
message; otherwise the prompt embeds `doc_text[:25000]` and the gateway is
called once. -/
def tool_document_qa (gen : Gen) (question doc_text language : String) : Option String :=
  if pyIsBlank doc_text then some noDocMsg
  else (gen (GenPayload.flat (docQAPrompt question (pySlice doc_text 25000) language))).map String.trim

/-- The flat prompt built by `tool_translate`. -/
def translatePrompt (text target_language : String) : String :=
  "\nYou are a professional translator.\n\nTranslate the following text into: " ++
  target_language ++ ".\n\nKeep the original meaning, tone, and style.\n\nText:\n\"\"\"" ++
  text ++ "\"\"\"\n"

/-- `tool_translate`. -/
def tool_translate (gen : Gen) (text target_language : String) : Option String :=
  (gen (GenPayload.flat (translatePrompt text target_language))).map String.trim

/-- The fixed instructional message `tool_resume_review` returns when the
resume text is blank. -/
def resumeBlankMsg : String :=
  "Please upload your resume as PDF/TXT or paste it so I can review it."

/-- The flat prompt built by `tool_resume_review` (its f-string); the caller
splices in the already-truncated resume text `resume_text[:20000]`. -/
def resumePrompt (resumeText language : String) : String :=
  "\nYou are a resume and career advisor.\n\nYou receive a resume text and must:\n1. Summarize the candidate's profile.\n2. Point out 5–10 very specific improvements (content + formatting).\n3. Suggest 3 tailored role titles the candidate can target.\n4. Suggest 3–5 strong bullet points they can add.\n\nAnswer in this language: " ++
  language ++ ".\n\nResume text:\n\"\"\"" ++ resumeText ++ "\"\"\"\n"

/-- `tool_resume_review`: blank resume text short-circuits with the fixed
instructional message; otherwise the prompt embeds `resume_text[:20000]`. -/
def tool_resume_review (gen : Gen) (resume_text language : String) : Option String :=
  if pyIsBlank resume_text then some resumeBlankMsg
  else (gen (GenPayload.flat (resumePrompt (pySlice resume_text 20000) language))).map String.trim

/-- The flat prompt built by `tool_coding_help`. -/
def codingPrompt (question language : String) : String :=
  "\nYou are a senior software engineer and coding mentor.\n\nUser question:\n" ++
  question ++
  "\n\nYou must:\n- Explain step by step, but not too long.\n- Show minimal but correct code examples.\n- Add short comments.\n- Answer in language: " ++
  language ++ ".\n"

/-- `tool_coding_help`. -/
def tool_coding_help (gen : Gen) (question language : String) : Option String :=
  (gen (GenPayload.flat (codingPrompt question language))).map String.trim

/-- The flat prompt built by `tool_emotional_support`. -/
def emotionalPrompt (message language : String) : String :=
  "\nYou are a supportive, empathetic friend.\n\nUser message:\n" ++ message ++
  "\n\nYou must:\n- Validate their feelings.\n- Avoid giving medical or clinical diagnosis.\n- Offer simple, kind suggestions and coping strategies.\n- Encourage them to reach out to trusted people or professionals if needed.\n- Answer in language: " ++
  language ++ ".\n"

/-- `tool_emotional_support`. -/
def tool_emotional_support (gen : Gen) (message language : String) : Option String :=
  (gen (GenPayload.flat (emotionalPrompt message language))).map String.trim

/- ===== AGENTIC MODE: PLAN + ACT ===== -/

/-- The constant `available_tools_description` string. -/
def availableToolsDescription : String :=
  "\nYou have these internal skills/tools:\n\n1. general_chat: For broad reasoning, explanation, brainstorming.\n2. coding_help: For code, debugging, writing functions, etc.\n3. resume_review: For CV/resume critique and job guidance.\n4. emotional_support: For empathy and motivation (not medical).\n5. document_qa: For answering questions about uploaded PDFs/TXTs.\n6. translate: For translating text into user's target language.\n\nYou cannot actually call external APIs here; you must \"simulate\" tool use by clearly reasoning.\n"

/-- One rendered history line of the agentic prompt:
`f"User: {turn['user']}\nAssistant: {turn['assistant']}\n"`. -/
def turnLine (t : Turn) : String :=
  "User: " ++ t.user ++ "\nAssistant: " ++ t.assistant ++ "\n"

/-- The `history_text` section of `agentic_plan_and_execute`: empty when the
history is empty, otherwise a header followed by the loop over
`chat_history[-6:]` appending one `turnLine` per turn. -/
def historyText (chat_history : List Turn) : String :=
  if chat_history.isEmpty then ""
  else (pyTail chat_history 6).foldl (fun acc t => acc ++ turnLine t) "\nPrevious conversation:\n"

/-- The `doc_hint` section of `agentic_plan_and_execute`: empty when the
document text is blank, otherwise a fixed framing around `doc_text[:8000]`. -/
def docHint (doc_text : String) : String :=
  if pyIsBlank doc_text then ""
  else "\n\nThe user also provided document text. You can treat it as context when needed:\n\"\"\"" ++
    pySlice doc_text 8000 ++ "\"\"\""

/-- The full flat prompt of `agentic_plan_and_execute` (its final f-string). -/
def agenticPrompt (goal role language doc_text : String) (chat_history : List Turn) : String :=
  "\nYou are GenieTalk, an AGENTIC AI assistant.\n\nUser goal:\n\"\"\"" ++ goal ++
  "\"\"\"\n\nRole: " ++ role ++ "\nTarget answer language: " ++ language ++ "\n\n" ++
  availableToolsDescription ++
  "\n\nYour job:\n1. Briefly restate the goal.\n2. Create a numbered plan (3–6 steps).\n3. For each step, say which tool/skill you are conceptually using (from the list).\n4. Then actually do the reasoning/work for those steps.\n5. Finally, give a clean FINAL ANSWER section that the user can read directly.\n\nUse clear headings:\n- Goal\n- Plan\n- Step-by-step Thinking\n- Final Answer\n\nBe practical and focused. If documents are relevant, you may use them conceptually.\n\n" ++
  historyText chat_history ++ "\n" ++ docHint doc_text ++ "\n"

/-- `agentic_plan_and_execute`: one gateway call on the agentic prompt,
wrapping the trimmed reply into an `AgentRun` record. -/
def agentic_plan_and_execute (gen : Gen) (goal role language doc_text : String)
    (chat_history : List Turn) : Option AgentRun :=
  (gen (GenPayload.flat (agenticPrompt goal role language doc_text chat_history))).map
    (fun t => ⟨t.trim⟩)

/- ===== CHAT-MODE ROLE ROUTING AND THE TURN HANDLER ===== -/

/-- The chat-mode role routing chain (`if role == "General Assistant": ...`),
including the Resume Review argument selection
`doc_text_context if doc_text_context else user_input`. -/
def routeChat (gen : Gen) (role user_input language doc_text : String)
    (history : List Turn) : Option String :=
  if role = "General Assistant" then tool_general_chat gen user_input language role history
  else if role = "Coding Help" then tool_coding_help gen user_input language
  else if role = "Resume Review" then
    tool_resume_review gen (if doc_text.isEmpty then user_input else doc_text) language
  else if role = "Emotional Support" then tool_emotional_support gen user_input language
  else if role = "Document QA" then tool_document_qa gen user_input doc_text language
  else if role = "Translator" then tool_translate gen user_input language
  else tool_general_chat gen user_input language role history

/-- The interaction mode radio button. -/
inductive Mode
  | chat
  | agenticGoal
deriving DecidableEq

/-- The user-visible outcome of one submitted input event. -/
inductive Outcome
  | noInput
  | missingKey
  | gatewayFailed
  | replied (text : String)
deriving DecidableEq

/-- The turn handler for one input event (the script body from
`user_input = st.chat_input(...)` on): no input does nothing; an empty API
key warns and stops; otherwise the input is dispatched by mode, and a turn
is appended only after the gateway call returned (an exception leaves the
session state untouched, modelled by returning `st` unchanged). -/
def handleInput (gen : Gen) (api_key user_input : String) (mode : Mode)
    (role language doc_text : String) (st : SessionState) : SessionState × Outcome :=
  if user_input = "" then (st, Outcome.noInput)
  else if api_key = "" then (st, Outcome.missingKey)
  else match mode with
  | Mode.chat =>
    match routeChat gen role user_input language doc_text st.messages with
    | none => (st, Outcome.gatewayFailed)
    | some reply =>
      ({ st with messages := st.messages ++ [⟨user_input, reply⟩] }, Outcome.replied reply)
  | Mode.agenticGoal =>
    match agentic_plan_and_execute gen user_input role language doc_text st.messages with
    | none => (st, Outcome.gatewayFailed)
    | some run =>
      ({ messages := st.messages ++ [⟨user_input, run.agentic_explanation⟩],
         agent_runs := st.agent_runs ++ [run] },
       Outcome.replied run.agentic_explanation)

/- ===== SPEC-SIDE DEFINITIONS FOR THE ROUTING REFINEMENT ===== -/

/-- The six role names offered by the sidebar selectbox. -/
def knownRoles : List String :=
  ["General Assistant", "Coding Help", "Resume Review", "Emotional Support",
   "Document QA", "Translator"]

/-- Names for the six assemblers of the spec's section 4.2 mapping table. -/
inductive AssemblerId
  | generalAssistant
  | codingHelp
  | resumeReview
  | emotionalSupport
  | documentQA
  | translator
deriving DecidableEq

/-- Modelled from the spec: the section 4.2/4.3 mapping table, written from
the spec's words — each known role name maps to its designated assembler
and any unmatched role falls back to the General Assistant assembler. -/
def spec_route (role : String) : AssemblerId :=
  if role = "General Assistant" then AssemblerId.generalAssistant
  else if role = "Coding Help" then AssemblerId.codingHelp
  else if role = "Resume Review" then AssemblerId.resumeReview
  else if role = "Emotional Support" then AssemblerId.emotionalSupport
  else if role = "Document QA" then AssemblerId.documentQA
  else if role = "Translator" then AssemblerId.translator
  else AssemblerId.generalAssistant

/-- Invoking one assembler by name, with the argument selection each branch
of the routing chain performs. -/
def invokeAssembler (a : AssemblerId) (gen : Gen) (user_input language role doc_text : String)
    (history : List Turn) : Option String :=
  match a with
  | AssemblerId.generalAssistant => tool_general_chat gen user_input language role history
  | AssemblerId.codingHelp => tool_coding_help gen user_input language
  | AssemblerId.resumeReview =>
    tool_resume_review gen (if doc_text.isEmpty then user_input else doc_text) language
  | AssemblerId.emotionalSupport => tool_emotional_support gen user_input language
  | AssemblerId.documentQA => tool_document_qa gen user_input doc_text language
  | AssemblerId.translator => tool_translate gen user_input language

/- ===== CLAIM THEOREMS ===== -/

/-- C1: in Chat mode, when the gateway call of the dispatched assembler
fails (the routed call returns `none`, modelling a raised exception), no
turn is appended: the messages sequence of the resulting session state
equals the one before the call, and the outcome is the surfaced failure. -/
theorem chat_gateway_failure_leaves_store_unchanged
    (gen : Gen) (api_key user_input role language doc_text : String) (st : SessionState)
    (hIn : user_input ≠ "") (hKey : api_key ≠ "")
    (hFail : routeChat gen role user_input language doc_text st.messages = none) :
    (handleInput gen api_key user_input Mode.chat role language doc_text st).1.messages
      = st.messages ∧
    (handleInput gen api_key user_input Mode.chat role language doc_text st).2
      = Outcome.gatewayFailed := by
  simp [handleInput, hIn, hKey, hFail]

/-- C1 witness: a concrete forced gateway failure in Chat mode leaves the
empty store empty. -/
theorem chat_gateway_failure_leaves_store_unchanged_witness :
    (handleInput genNone "k" "hi" Mode.chat "General Assistant" "English" "" ⟨[], []⟩).1.messages
      = [] ∧
    (handleInput genNone "k" "hi" Mode.chat "General Assistant" "English" "" ⟨[], []⟩).2
      = Outcome.gatewayFailed :=
  chat_gateway_failure_leaves_store_unchanged genNone "k" "hi" "General Assistant" "English" ""
    ⟨[], []⟩ (by decide) (by decide) rfl

/-- C2: with an empty API key, any submitted input halts with the warning
outcome, the session state is returned unchanged, and the result does not
depend on the gateway at all (it is the same for every `gen`, including the
always-failing one), so no gateway call is made. -/
theorem missing_credential_blocks_dispatch
    (gen : Gen) (user_input : String) (mode : Mode) (role language doc_text : String)
    (st : SessionState) (hIn : user_input ≠ "") :
    handleInput gen "" user_input mode role language doc_text st = (st, Outcome.missingKey) := by
  simp [handleInput, hIn]

/-- C2 witness: the spec's end-to-end scenario — credential absent, user
submits "hello", store stays empty and a warning is surfaced. -/
theorem missing_credential_blocks_dispatch_witness :
    handleInput genNone "" "hello" Mode.chat "General Assistant" "English" "" ⟨[], []⟩
      = (⟨[], []⟩, Outcome.missingKey) :=
  missing_credential_blocks_dispatch genNone "hello" Mode.chat "General Assistant" "English" ""
    ⟨[], []⟩ (by decide)

/-- C3: the chat-mode routing chain refines the section 4.2 mapping table:
for every role string it invokes exactly the assembler `spec_route`
designates, and any role outside the six known names is routed to the
General Assistant assembler rather than failing. -/
theorem role_routing_matches_spec_mapping
    (gen : Gen) (role user_input language doc_text : String) (history : List Turn) :
    routeChat gen role user_input language doc_text history
      = invokeAssembler (spec_route role) gen user_input language role doc_text history ∧
    (role ∉ knownRoles →
      routeChat gen role user_input language doc_text history
        = tool_general_chat gen user_input language role history) := by
  constructor
  · by_cases h1 : role = "General Assistant" <;> by_cases h2 : role = "Coding Help" <;>
      by_cases h3 : role = "Resume Review" <;> by_cases h4 : role = "Emotional Support" <;>
      by_cases h5 : role = "Document QA" <;> by_cases h6 : role = "Translator" <;>
      simp [routeChat, spec_route, invokeAssembler, h1, h2, h3, h4, h5, h6]
  · intro h
    simp [knownRoles] at h
    push_neg at h
    obtain ⟨h1, h2, h3, h4, h5, h6⟩ := h
    simp [routeChat, h1, h2, h3, h4, h5, h6]

/-- C3 witness: the unknown role "Pirate" falls back to the General
Assistant assembler. -/
theorem role_routing_matches_spec_mapping_witness :
    routeChat genNone "Pirate" "hi" "English" "" []
      = tool_general_chat genNone "hi" "English" "Pirate" [] :=
  (role_routing_matches_spec_mapping genNone "Pirate" "hi" "English" "" []).2 (by decide)

/-- C10: in the Resume Review branch of chat-mode routing, an empty
extracted document context makes the typed input itself the resume text,
and a non-empty document context is used as the resume text instead. -/
theorem resume_review_source_selection
    (gen : Gen) (user_input language : String) (history : List Turn) :
    routeChat gen "Resume Review" user_input language "" history
      = tool_resume_review gen user_input language ∧
    (∀ doc_text : String, doc_text ≠ "" →
      routeChat gen "Resume Review" user_input language doc_text history
        = tool_resume_review gen doc_text language) := by
  constructor
  · rfl
  · intro doc hdoc
    simp [routeChat, String.isEmpty_iff, hdoc]

/-- C10 witness: with no document the typed text is reviewed; with a
document the document is reviewed. -/
theorem resume_review_source_selection_witness :
    routeChat genNone "Resume Review" "my resume" "English" "" []
      = tool_resume_review genNone "my resume" "English" ∧
    routeChat genNone "Resume Review" "typed" "English" "doc" []
      = tool_resume_review genNone "doc" "English" :=
  ⟨(resume_review_source_selection genNone "my resume" "English" []).1,
   (resume_review_source_selection genNone "typed" "English" []).2 "doc" (by decide)⟩

/-- C4: with blank document context `tool_document_qa` returns the fixed
no-document message for every gateway (in particular the always-failing
one, so no gateway call is made); with non-blank context it performs the
single gateway call on the prompt embedding `doc_text[:25000]`, which is
the at-most-25000-character prefix of the document text. -/
theorem document_qa_blank_shortcircuit_and_truncation
    (gen : Gen) (question doc_text language : String) :
    (pyIsBlank doc_text = true →
      tool_document_qa gen question doc_text language = some noDocMsg) ∧
    (pyIsBlank doc_text = false →
      tool_document_qa gen question doc_text language
        = (gen (GenPayload.flat
            (docQAPrompt question (pySlice doc_text 25000) language))).map String.trim) ∧
    (pySlice doc_text 25000).data = doc_text.data.take 25000 ∧
    (pySlice doc_text 25000).data.length ≤ 25000 := by
  refine ⟨?_, ?_, rfl, ?_⟩
  · intro h; simp [tool_document_qa, h]
  · intro h; simp [tool_document_qa, h]
  · have h : (pySlice doc_text 25000).data = doc_text.data.take 25000 := rfl
    rw [h, List.length_take]
    omega

/-- C4 witness: blank context yields the fixed message even under the
always-failing gateway; non-blank context reaches the gateway (whose forced
failure propagates). -/
theorem document_qa_blank_shortcircuit_and_truncation_witness :
    tool_document_qa genNone "q" "" "English" = some noDocMsg ∧
    tool_document_qa genNone "q" "some doc" "English" = none :=
  ⟨(document_qa_blank_shortcircuit_and_truncation genNone "q" "" "English").1 rfl,
   ((document_qa_blank_shortcircuit_and_truncation genNone "q" "some doc" "English").2.1
      (by decide)).trans rfl⟩

/-- C5: with blank resume text `tool_resume_review` returns the fixed
instructional message for every gateway (so zero gateway calls); with
non-blank text it performs the single gateway call on the prompt embedding
`resume_text[:20000]`, whose characters are exactly the first 20000
characters of the input whenever the input is at least that long. -/
theorem resume_review_blank_shortcircuit_and_truncation
    (gen : Gen) (resume_text language : String) :
    (pyIsBlank resume_text = true →
      tool_resume_review gen resume_text language = some resumeBlankMsg) ∧
    (pyIsBlank resume_text = false →
      tool_resume_review gen resume_text language
        = (gen (GenPayload.flat
            (resumePrompt (pySlice resume_text 20000) language))).map String.trim) ∧
    (pySlice resume_text 20000).data = resume_text.data.take 20000 ∧
    (20000 ≤ resume_text.data.length → (pySlice resume_text 20000).data.length = 20000) := by
  refine ⟨?_, ?_, rfl, ?_⟩
  · intro h; simp [tool_resume_review, h]
  · intro h; simp [tool_resume_review, h]
  · intro h
    have heq : (pySlice resume_text 20000).data = resume_text.data.take 20000 := rfl
    rw [heq, List.length_take]
    omega

/-- C5 witness: whitespace-only resume text yields the fixed instructional
message even under the always-failing gateway; non-blank text reaches the
gateway. -/
theorem resume_review_blank_shortcircuit_and_truncation_witness :
    tool_resume_review genNone "   " "English" = some resumeBlankMsg ∧
    tool_resume_review genNone "short resume" "English" = none :=
  ⟨(resume_review_blank_shortcircuit_and_truncation genNone "   " "English").1 rfl,
   ((resume_review_blank_shortcircuit_and_truncation genNone "short resume" "English").2.1
      (by decide)).trans rfl⟩

/-- The history portion of the structured payload, one user entry then one
model entry per prior turn, in order. -/
def historyEntries : List Turn → List Content
  | [] => []
  | m :: rest => ⟨"user", [m.user]⟩ :: ⟨"model", [m.assistant]⟩ :: historyEntries rest

theorem foldl_historyEntries (l : List Turn) :
    ∀ init : List Content,
      l.foldl (fun acc m => acc ++ [⟨"user", [m.user]⟩, ⟨"model", [m.assistant]⟩]) init
        = init ++ historyEntries l := by
  induction l with
  | nil => intro init; simp [historyEntries]
  | cons m rest ih => intro init; simp [historyEntries, ih]

theorem historyEntries_length (l : List Turn) :
    (historyEntries l).length = 2 * l.length := by
  induction l with
  | nil => simp [historyEntries]
  | cons m rest ih => simp [historyEntries, ih]; omega

/-- C7: the structured payload of the General Assistant assembler is the
leading synthetic user entry carrying the role/language framing, then a
user entry and a model entry per prior turn in order, then the current
input as final user entry — `2 * n + 2` entries for `n` prior turns — and
`tool_general_chat` sends exactly this payload. -/
theorem general_chat_payload_shape
    (gen : Gen) (user_input language role : String) (history : List Turn) :
    generalChatContents user_input language role history
      = ⟨"user", [generalSystemPrompt role language]⟩ ::
          (historyEntries history ++ [⟨"user", [user_input]⟩]) ∧
    (generalChatContents user_input language role history).length = 2 * history.length + 2 ∧
    tool_general_chat gen user_input language role history
      = (gen (GenPayload.structured
          (generalChatContents user_input language role history))).map String.trim := by
  have h := foldl_historyEntries history [⟨"user", [generalSystemPrompt role language]⟩]
  refine ⟨?_, ?_, rfl⟩
  · simp [generalChatContents, h]
  · simp [generalChatContents, h, historyEntries_length]

/-- The rendering of a list of turns as consecutive `turnLine` blocks. -/
def renderedHistory : List Turn → String
  | [] => ""
  | t :: rest => turnLine t ++ renderedHistory rest

theorem foldl_turnLine (l : List Turn) :
    ∀ init : String,
      l.foldl (fun acc t => acc ++ turnLine t) init = init ++ renderedHistory l := by
  induction l with
  | nil => intro init; simp [renderedHistory]
  | cons t rest ih => intro init; simp [renderedHistory, ih, String.append_assoc]

/-- C6: the agentic prompt's history section renders exactly
`chat_history[-6:]` — the last `min 6 n` turns, a suffix of the history —
each as a plain `User:`/`Assistant:` line block, and a non-blank document
context enters the prompt truncated to its at-most-8000-character prefix. -/
theorem agentic_history_window_and_doc_truncation
    (chat_history : List Turn) (doc_text : String) :
    (pyTail chat_history 6).length = min 6 chat_history.length ∧
    chat_history.take (chat_history.length - 6) ++ pyTail chat_history 6 = chat_history ∧
    (chat_history ≠ [] →
      historyText chat_history
        = "\nPrevious conversation:\n" ++ renderedHistory (pyTail chat_history 6)) ∧
    (pyIsBlank doc_text = false →
      docHint doc_text
        = "\n\nThe user also provided document text. You can treat it as context when needed:\n\"\"\"" ++
            pySlice doc_text 8000 ++ "\"\"\"" ∧
      (pySlice doc_text 8000).data = doc_text.data.take 8000 ∧
      (pySlice doc_text 8000).data.length ≤ 8000) := by
  refine ⟨?_, List.take_append_drop _ _, ?_, ?_⟩
  · simp [pyTail]
    omega
  · intro h
    cases chat_history with
    | nil => exact absurd rfl h
    | cons t rest => simp [historyText, foldl_turnLine]
  · intro h
    refine ⟨by simp [docHint, h], rfl, ?_⟩
    have heq : (pySlice doc_text 8000).data = doc_text.data.take 8000 := rfl
    rw [heq, List.length_take]
    omega

/-- A concrete seven-turn history used by the C6 witness. -/
def hist7 : List Turn :=
  [⟨"u1", "a1"⟩, ⟨"u2", "a2"⟩, ⟨"u3", "a3"⟩, ⟨"u4", "a4"⟩,
   ⟨"u5", "a5"⟩, ⟨"u6", "a6"⟩, ⟨"u7", "a7"⟩]

/-- C6 witness: with seven prior turns the rendered window holds exactly
the last six of them, and a concrete non-blank document gets the framed
hint. -/
theorem agentic_history_window_and_doc_truncation_witness :
    (pyTail hist7 6).length = 6 ∧
    historyText hist7 = "\nPrevious conversation:\n" ++ renderedHistory (pyTail hist7 6) ∧
    docHint "D"
      = "\n\nThe user also provided document text. You can treat it as context when needed:\n\"\"\"" ++
          pySlice "D" 8000 ++ "\"\"\"" :=
  ⟨((agentic_history_window_and_doc_truncation hist7 "D").1).trans (by decide),
   (agentic_history_window_and_doc_truncation hist7 "D").2.2.1 (by decide),
   ((agentic_history_window_and_doc_truncation hist7 "D").2.2.2 (by decide)).1⟩

/-- C9: the empty upload list extracts to the empty string; in general the
extraction output is the per-file results joined with a blank line in
upload order; a file with an unsupported suffix contributes the literal
placeholder naming it, and doing so in the middle of a list leaves every
other file's contribution in place. -/
theorem uploaded_text_join_and_placeholder :
    get_uploaded_text [] = "" ∧
    (∀ files : List UFile,
      get_uploaded_text files = String.intercalate "\n\n" (files.map fileText)) ∧
    (∀ f : UFile,
      pyEndsWith (pyLower f.name) ".txt" = false → pyEndsWith (pyLower f.name) ".pdf" = false →
      fileText f = "Unsupported file type: " ++ f.name) ∧
    (∀ (pre post : List UFile) (f : UFile),
      pyEndsWith (pyLower f.name) ".txt" = false → pyEndsWith (pyLower f.name) ".pdf" = false →
      get_uploaded_text (pre ++ f :: post)
        = String.intercalate "\n\n"
            (pre.map fileText ++ ("Unsupported file type: " ++ f.name) :: post.map fileText)) := by
  have hall : ∀ files : List UFile,
      get_uploaded_text files = String.intercalate "\n\n" (files.map fileText) := by
    intro files; cases files <;> rfl
  refine ⟨rfl, hall, ?_, ?_⟩
  · intro f h1 h2; simp [fileText, h1, h2]
  · intro pre post f h1 h2
    have hf : fileText f = "Unsupported file type: " ++ f.name := by simp [fileText, h1, h2]
    rw [hall, List.map_append, List.map_cons, hf]

/-- C9 witness: a concrete unsupported file in the middle of two text files
contributes its placeholder and blocks neither neighbour. -/
theorem uploaded_text_join_and_placeholder_witness :
    get_uploaded_text [] = "" ∧
    fileText ⟨"notes.docx", [], []⟩ = "Unsupported file type: " ++ "notes.docx" ∧
    get_uploaded_text [⟨"a.txt", [104], []⟩, ⟨"notes.docx", [], []⟩, ⟨"b.txt", [105], []⟩]
      = String.intercalate "\n\n"
          ([⟨"a.txt", [104], []⟩].map fileText ++
            ("Unsupported file type: " ++ "notes.docx") :: [⟨"b.txt", [105], []⟩].map fileText) :=
  ⟨uploaded_text_join_and_placeholder.1,
   uploaded_text_join_and_placeholder.2.2.1 ⟨"notes.docx", [], []⟩ (by decide) (by decide),
   uploaded_text_join_and_placeholder.2.2.2 [⟨"a.txt", [104], []⟩] [⟨"b.txt", [105], []⟩]
     ⟨"notes.docx", [], []⟩ (by decide) (by decide)⟩

theorem strict_ignore_agree :
    ∀ (fuel : Nat) (bytes : List Nat) (cs : List Char), bytes.length ≤ fuel →
      utf8DecodeStrictAux fuel bytes = some cs → utf8DecodeIgnoreAux fuel bytes = cs := by
  intro fuel
  induction fuel with
  | zero =>
    intro bytes cs hlen hs
    cases bytes with
    | nil =>
      simp [utf8DecodeStrictAux] at hs
      simp [utf8DecodeIgnoreAux, hs]
    | cons b rest => simp at hlen
  | succ fuel ih =>
    intro bytes cs hlen hs
    cases bytes with
    | nil =>
      simp [utf8DecodeStrictAux] at hs
      simp [utf8DecodeIgnoreAux, hs]
    | cons b rest =>
      cases hd : utf8Dec1 b rest with
      | none =>
        simp only [utf8DecodeStrictAux, hd] at hs
        exact absurd hs (by simp)
      | some ck =>
        obtain ⟨c, k⟩ := ck
        simp only [utf8DecodeStrictAux, hd] at hs
        rw [Option.map_eq_some'] at hs
        obtain ⟨cs0, hs0, hcs⟩ := hs
        have hlen0 : (rest.drop k).length ≤ fuel := by
          have hdl := List.length_drop k rest
          simp at hlen
          omega
        have hig := ih (rest.drop k) cs0 hlen0 hs0
        simp [utf8DecodeIgnoreAux, hd, hig, hcs]

/-- C8 (amended): `.txt` extraction decodes the bytes as UTF-8 dropping
undecodable bytes rather than failing — it is a total function agreeing
with strict UTF-8 decoding on every well-formed input, and the suffix
dispatch sends every `.txt` file's bytes through it. -/
theorem txt_decode_total_agrees_with_utf8
    (bytes : List Nat) (cs : List Char)
    (h : utf8DecodeStrict bytes = some cs) :
    read_txt_file bytes = String.mk cs ∧
    (∀ f : UFile, pyEndsWith (pyLower f.name) ".txt" = true → fileText f = read_txt_file f.bytes) := by
  constructor
  · have hag := strict_ignore_agree bytes.length bytes cs (le_refl _) h
    simp [read_txt_file, utf8DecodeIgnore, hag]
  · intro f hf; simp [fileText, hf]

/-- C8 witness: the well-formed bytes of "hi" decode to "hi". -/
theorem txt_decode_total_agrees_with_utf8_witness :
    read_txt_file [104, 105] = String.mk [Char.ofNat 104, Char.ofNat 105] :=
  (txt_decode_total_agrees_with_utf8 [104, 105] [Char.ofNat 104, Char.ofNat 105] (by decide)).1

/-- C8 counterexample: on the single undecodable byte 0xFF the source's
decoding (errors="ignore") drops the byte and yields the empty string,
while the claimed replacement decoding (errors="replace") yields U+FFFD:
the claim's "replacing undecodable bytes" does not hold of the code. -/
theorem txt_decode_not_replacing_counterexample :
    read_txt_file [255] = "" ∧
    read_txt_file_replace_spec [255] = "�" ∧
    read_txt_file [255] ≠ read_txt_file_replace_spec [255] := by
  refine ⟨by decide, by decide, by decide⟩

end GenieTalk
